import Mathlib

/-!
Shallow embedding of the remote-node connection and command-execution
abstraction of ceph/ceph.py: the RolesContainer role set, Ceph cluster
equality, the SSHConnectionManager reconnection loop, CephNode.exec_command
in its standard and long-running modes, the CephObjectFactory, and the
node-level ceph-object bookkeeping. Machine behaviour that the Python code
leaves to libraries (paramiko, select, datetime) is represented by explicit
traces of outcomes fed to the translated control flow.
-/

/-- Container for node roles (class RolesContainer): a plain list of role
strings, as stored in the attribute role_list. -/
structure RolesContainer where
  role_list : List String
  deriving DecidableEq

/-- RolesContainer.__init__ on an iterable argument: keeps the collection
when it is non-empty, otherwise normalises to the sentinel list ["pool"]. -/
def RolesContainer.ofList (role : List String) : RolesContainer :=
  ⟨if role.length > 0 then role else ["pool"]⟩

/-- RolesContainer.__init__ on a single role (a Python 2 str has no __iter__
attribute, so a plain string takes this branch): a one-element list. -/
def RolesContainer.ofStr (role : String) : RolesContainer :=
  ⟨[role]⟩

/-- RolesContainer.__eq__ when the argument has __iter__ (a collection):
all(atomic_role in role for atomic_role in self.role_list), i.e. every role
of self must occur in the ARGUMENT. -/
def RolesContainer.eqList (self : RolesContainer) (role : List String) : Bool :=
  self.role_list.all (fun atomic_role => role.contains atomic_role)

/-- RolesContainer.__eq__ when the argument is a single role string (no
__iter__): role in self.role_list. -/
def RolesContainer.eqStr (self : RolesContainer) (role : String) : Bool :=
  self.role_list.contains role

/-- RolesContainer.extend: list.extend followed by role_list = list(set(...)).
The set conversion is modelled by List.dedup; Python leaves the resulting
order unspecified, so properties of extend are stated up to membership. -/
def RolesContainer.extend (self : RolesContainer) (iterable : List String) :
    RolesContainer :=
  ⟨(self.role_list ++ iterable).dedup⟩

/-- C1 counterexample: with R = ["a", "b"] and C = ["a"], every element of C
appears in R, yet RoleSet(R) == C evaluates to false (the code checks that
every element of R appears in C, the opposite direction); likewise an empty
argument collection yields false, not vacuous truth. -/
theorem C1_counterexample :
    RolesContainer.eqList (RolesContainer.ofList ["a", "b"]) ["a"] = false ∧
    (∀ c ∈ (["a"] : List String), c ∈ (["a", "b"] : List String)) ∧
    RolesContainer.eqList (RolesContainer.ofList ["a", "b"]) [] = false := by
  decide

/-- C1 (amended): for a RoleSet built from a non-empty collection, the
overloaded equality against a collection C is true iff every element of the
ROLE SET appears in C (so an empty C yields false, the role list being
non-empty), and equality against a single role string r is true iff r is an
element of the role set. -/
theorem C1_amended_membership (r₀ : String) (R C : List String) (r : String) :
    (RolesContainer.eqList (RolesContainer.ofList (r₀ :: R)) C = true ↔
      ∀ x ∈ r₀ :: R, x ∈ C) ∧
    RolesContainer.eqList (RolesContainer.ofList (r₀ :: R)) [] = false ∧
    (RolesContainer.eqStr (RolesContainer.ofList (r₀ :: R)) r = true ↔
      r ∈ r₀ :: R) := by
  refine ⟨?_, ?_, ?_⟩ <;>
    simp [RolesContainer.ofList, RolesContainer.eqList, RolesContainer.eqStr]

/-- C9: RoleSet.extend deduplicates, hence extending twice with the same
list yields the same final role set (membership-wise) as extending once. -/
theorem C9_extend_idempotent (S : RolesContainer) (L : List String)
    (r : String) :
    r ∈ ((S.extend L).extend L).role_list ↔ r ∈ (S.extend L).role_list := by
  simp [RolesContainer.extend, List.mem_dedup, List.mem_append]

/-- Ceph cluster (class Ceph): a name and the list of nodes. CephNode defines
no __eq__, so Python compares nodes by identity; nodes are therefore modelled
as identifiers. -/
structure Ceph where
  name : String
  node_list : List Nat
  deriving DecidableEq

/-- Ceph.__eq__ between two clusters (the argument has a node_list attribute):
all(atomic_node in ceph_cluster for atomic_node in self.node_list) — every
node of self must be present in the argument cluster. The branch for an
argument without a node_list attribute returns False and is outside the scope
of the cluster-to-cluster claim. -/
def Ceph.eq (self ceph_cluster : Ceph) : Bool :=
  self.node_list.all (fun atomic_node => ceph_cluster.node_list.contains atomic_node)

/-- Ceph.__ne__: the negation of Ceph.__eq__. -/
def Ceph.ne (self ceph_cluster : Ceph) : Bool :=
  !(Ceph.eq self ceph_cluster)

/-- C4: cluster equality is asymmetric containment. A == B holds iff every
node of A is present in B; consequently whenever the nodes of A all lie in B
while B has a node absent from A (a strict subset), A == B is true and
B == A is false, so equality is not symmetric in general. -/
theorem C4_cluster_eq_containment (A B : Ceph) :
    (Ceph.eq A B = true ↔ ∀ n ∈ A.node_list, n ∈ B.node_list) ∧
    ((∀ n ∈ A.node_list, n ∈ B.node_list) →
      (∃ m ∈ B.node_list, m ∉ A.node_list) →
      Ceph.eq A B = true ∧ Ceph.eq B A = false) := by
  have hiff : ∀ X Y : Ceph,
      Ceph.eq X Y = true ↔ ∀ n ∈ X.node_list, n ∈ Y.node_list := by
    intro X Y
    simp [Ceph.eq]
  refine ⟨hiff A B, fun hsub hstrict => ⟨(hiff A B).mpr hsub, ?_⟩⟩
  rcases hstrict with ⟨m, hmB, hmA⟩
  rw [Bool.eq_false_iff]
  intro hBA
  exact hmA ((hiff B A).mp hBA m hmB)

/-- One iteration outcome of the SSHConnectionManager.__connect retry loop:
either the paramiko connect call succeeds, or it raises an error; a failing
iteration carries the wall-clock instant at which the except block runs (the
two datetime.now() calls inside one iteration are modelled at that same
instant). -/
inductive ConnAttempt
  | ok
  | fail (err : String) (now : Int)
  deriving DecidableEq

/-- Result of the retry loop: connection established, or the last error
re-raised. -/
inductive ConnResult
  | connected
  | raised (err : String)
  deriving DecidableEq

namespace SSHConnectionManager

/-- SSHConnectionManager.__connect, driven by a trace of per-iteration
outcomes. State threaded through: the nullable outage-start timestamp
(attribute __outage_start_time). Returns the loop result (none when the
trace ends with the loop still retrying), the timestamp left in the state,
and the list of backoff sleeps performed (sleep(10) before each retry).
On success the timestamp is cleared; a failure records the timestamp if it
is unset, then re-raises the error when now minus the recorded start exceeds
the outage timeout (attribute outage_timeout), else sleeps 10 and retries. -/
def connectLoop (outage_timeout : Int) (outage_start_time : Option Int) :
    List ConnAttempt → Option ConnResult × Option Int × List Int
  | [] => (none, outage_start_time, [])
  | ConnAttempt.ok :: _ => (some ConnResult.connected, none, [])
  | ConnAttempt.fail err now :: rest =>
      let start := outage_start_time.getD now
      if now - start > outage_timeout then
        (some (ConnResult.raised err), some start, [])
      else
        let r := connectLoop outage_timeout (some start) rest
        (r.1, r.2.1, 10 :: r.2.2)

end SSHConnectionManager

/-- C5: the reconnection loop (i) only ever sleeps the fixed backoff of 10
between attempts, (ii) on a successful attempt stops and clears the
first-failure timestamp, (iii) on a failing attempt records the first-failure
timestamp if unset (start = the recorded one, or now on a first failure),
re-raises that very error exactly when the elapsed time now - start exceeds
the outage tolerance, and otherwise sleeps 10 and keeps retrying with the
recorded timestamp. -/
theorem C5_connect_retry (outage_timeout : Int) (ost : Option Int)
    (tr rest : List ConnAttempt) (err : String) (now : Int) :
    (∀ s ∈ (SSHConnectionManager.connectLoop outage_timeout ost tr).2.2, s = 10) ∧
    (SSHConnectionManager.connectLoop outage_timeout ost (ConnAttempt.ok :: tr)
      = (some ConnResult.connected, none, [])) ∧
    (now - ost.getD now > outage_timeout →
      SSHConnectionManager.connectLoop outage_timeout ost
          (ConnAttempt.fail err now :: rest)
        = (some (ConnResult.raised err), some (ost.getD now), [])) ∧
    (¬ now - ost.getD now > outage_timeout →
      SSHConnectionManager.connectLoop outage_timeout ost
          (ConnAttempt.fail err now :: rest)
        = ((SSHConnectionManager.connectLoop outage_timeout
              (some (ost.getD now)) rest).1,
           (SSHConnectionManager.connectLoop outage_timeout
              (some (ost.getD now)) rest).2.1,
           10 :: (SSHConnectionManager.connectLoop outage_timeout
              (some (ost.getD now)) rest).2.2)) := by
  refine ⟨?_, rfl, ?_, ?_⟩
  · induction tr generalizing ost with
    | nil => simp [SSHConnectionManager.connectLoop]
    | cons a tl ih =>
      cases a with
      | ok => simp [SSHConnectionManager.connectLoop]
      | fail e t =>
        simp only [SSHConnectionManager.connectLoop]
        by_cases h : t - (ost.getD t) > outage_timeout
        · simp [h]
        · simp only [if_neg h]
          intro s hs
          rcases List.mem_cons.mp hs with h1 | h2
          · exact h1
          · exact ih (some (ost.getD t)) s h2
  · intro h
    simp [SSHConnectionManager.connectLoop, if_pos h]
  · intro h
    simp [SSHConnectionManager.connectLoop, if_neg h]

namespace CephNode

/-- Outcome of the paramiko call ssh().exec_command(cmd, timeout=timeout) in
the standard (non-long-running) path: either the three streams with the exit
status the stdout channel will report, or an SSHException with its message. -/
inductive SSHOutcome
  | ok (stdout stderr : String) (exit_status : Nat)
  | sshException (msg : String)
  deriving DecidableEq

/-- One iteration of the long-running poll loop: either
channel.exit_status_ready() is true and recv_exit_status() returns ec, or the
select call reports data on the readable list (r) and on the exceptional
list (x) — none standing for an empty list, some d for a 1024-byte recv
returning d. -/
inductive LoopStep
  | exitReady (ec : Nat)
  | dataAvail (r x : Option String)
  deriving DecidableEq

/-- Observable result of CephNode.exec_command: the (stdout, stderr) stream
pair of the standard path; the (read, ec) pair of the long-running path; a
raised CommandFailed with its message; the AttributeError hit when reading
stdout.channel after stdout was left None; a propagated SSHException (no
code path produces it — the except block has no raise statement — but the
constructor makes the propagation behaviour claimed by the spec statable);
or a long-running loop that the supplied trace never terminates. -/
inductive ExecResult
  | streams (stdout stderr : String)
  | longOutput (read : String) (ec : Nat)
  | commandFailed (msg : String)
  | attributeError
  | sshRaised (msg : String)
  | stillPolling
  deriving DecidableEq

/-- The while-True poll loop of the long-running branch: accumulates recv
data (readable first, then exceptional, as the two if blocks do) until an
iteration finds the exit status ready, returning (read, ec); none when the
trace runs out with the loop still polling. -/
def longRunningLoop (read : String) : List LoopStep → Option (String × Nat)
  | [] => none
  | LoopStep.exitReady ec :: _ => some (read, ec)
  | LoopStep.dataAvail r x :: rest =>
      longRunningLoop (read ++ r.getD "" ++ x.getD "") rest

/-- CephNode.exec_command. Arguments: the node's ip_address, the cmd, the
check_ec flag (default True) and the long_running flag (default False); the
poll trace drives the long-running loop and the SSHOutcome the standard
path. The sudo and timeout keywords only select the connection and bound the
paramiko call, so they do not appear in the result; the logging calls and
the write of self.exit_status are likewise omitted. In the standard path an
SSHException is caught and only logged (the channel-open-timeout substring
check merely picks an extra log line), after which stdout is still None and
stdout.channel raises an AttributeError; on a normal outcome, check_ec True
returns the streams for exit status 0 and raises CommandFailed(cmd +
" Error:  " + stderr + " " + ip_address) otherwise, while check_ec False
always returns the streams. -/
def exec_command (ip_address cmd : String) (check_ec long_running : Bool)
    (steps : List LoopStep) (outcome : SSHOutcome) : ExecResult :=
  if long_running then
    match longRunningLoop "" steps with
    | some (read, ec) => ExecResult.longOutput read ec
    | none => ExecResult.stillPolling
  else
    match outcome with
    | SSHOutcome.sshException _ => ExecResult.attributeError
    | SSHOutcome.ok stdout stderr exit_status =>
        if check_ec then
          if exit_status = 0 then ExecResult.streams stdout stderr
          else ExecResult.commandFailed
            (cmd ++ " Error:  " ++ stderr ++ " " ++ ip_address)
        else ExecResult.streams stdout stderr

end CephNode

/-- C3 counterexample: an SSHException whose message does not contain the
channel-open-timeout substring is swallowed exactly like one that does —
both leave execution to fail reading the unset stdout stream — whereas the
claim says any other transport-channel error propagates to the caller. -/
theorem C3_counterexample :
    CephNode.exec_command "10.0.0.1" "ls" true false []
        (CephNode.SSHOutcome.sshException "unrelated transport failure")
      = CephNode.ExecResult.attributeError ∧
    CephNode.exec_command "10.0.0.1" "ls" true false []
        (CephNode.SSHOutcome.sshException "Timeout openning channel of x")
      = CephNode.ExecResult.attributeError ∧
    CephNode.exec_command "10.0.0.1" "ls" true false []
        (CephNode.SSHOutcome.sshException "unrelated transport failure")
      ≠ CephNode.ExecResult.sshRaised "unrelated transport failure" := by
  refine ⟨rfl, rfl, ?_⟩
  decide

/-- C3 (amended): in the standard path every SSHException raised during
command submission is caught and swallowed whatever its message — the
channel-open-timeout substring match only selects an extra log line — and
execution then proceeds to read the unset stdout stream, failing with an
AttributeError; the transport error itself never propagates. -/
theorem C3_amended_swallow (ip cmd msg m : String) (check_ec : Bool)
    (steps : List CephNode.LoopStep) :
    CephNode.exec_command ip cmd check_ec false steps
        (CephNode.SSHOutcome.sshException msg)
      = CephNode.ExecResult.attributeError ∧
    CephNode.exec_command ip cmd check_ec false steps
        (CephNode.SSHOutcome.sshException msg)
      ≠ CephNode.ExecResult.sshRaised m := by
  refine ⟨rfl, ?_⟩
  simp [CephNode.exec_command]

/-- C6: in standard mode with check_ec true, exit status 0 returns the
(stdout, stderr) pair and any non-zero exit status raises CommandFailed
whose message is exactly the command text, the marker " Error:  ", the
captured stderr, a space and the node address; with check_ec false the
streams are returned whatever the exit status. -/
theorem C6_check_ec (ip cmd stdout stderr : String) (es : Nat)
    (steps : List CephNode.LoopStep) :
    (CephNode.exec_command ip cmd true false steps
        (CephNode.SSHOutcome.ok stdout stderr 0)
      = CephNode.ExecResult.streams stdout stderr) ∧
    (es ≠ 0 →
      CephNode.exec_command ip cmd true false steps
          (CephNode.SSHOutcome.ok stdout stderr es)
        = CephNode.ExecResult.commandFailed
            (cmd ++ " Error:  " ++ stderr ++ " " ++ ip)) ∧
    (CephNode.exec_command ip cmd false false steps
        (CephNode.SSHOutcome.ok stdout stderr es)
      = CephNode.ExecResult.streams stdout stderr) := by
    refine ⟨rfl, fun h => ?_, rfl⟩
    simp [CephNode.exec_command, h]

/-- C7: in long-running mode the result is independent of check_ec, is never
a CommandFailed, and is the (accumulated output, exit status) pair produced
by the poll loop: a data iteration appends the readable then the exceptional
chunk, an exit-ready iteration stops with the output gathered so far, and
when the loop terminates exec_command returns exactly that pair. -/
theorem C7_long_running (ip cmd read acc : String) (cec : Bool) (ec : Nat)
    (steps rest : List CephNode.LoopStep) (r x : Option String)
    (outcome : CephNode.SSHOutcome) (m : String) :
    (CephNode.exec_command ip cmd cec true steps outcome
      = CephNode.exec_command ip cmd true true steps outcome) ∧
    (CephNode.exec_command ip cmd cec true steps outcome
      ≠ CephNode.ExecResult.commandFailed m) ∧
    (CephNode.longRunningLoop acc (CephNode.LoopStep.exitReady ec :: rest)
      = some (acc, ec)) ∧
    (CephNode.longRunningLoop acc (CephNode.LoopStep.dataAvail r x :: rest)
      = CephNode.longRunningLoop (acc ++ r.getD "" ++ x.getD "") rest) ∧
    (CephNode.longRunningLoop "" steps = some (read, ec) →
      CephNode.exec_command ip cmd cec true steps outcome
        = CephNode.ExecResult.longOutput read ec) := by
  refine ⟨?_, ?_, rfl, rfl, fun h => ?_⟩
  · simp only [CephNode.exec_command, if_pos]
  · simp only [CephNode.exec_command, if_pos]
    cases h : CephNode.longRunningLoop "" steps with
    | none => simp
    | some p => simp
  · simp [CephNode.exec_command, h]

/-- The kind of object CephObjectFactory.create_ceph_object returns:
CephInstaller, CephClient, CephDemon or the generic CephObject. -/
inductive CephObjKind
  | installer
  | client
  | demon
  | generic
  deriving DecidableEq

namespace CephObjectFactory

/-- Class attribute DEMON_ROLES of CephObjectFactory. -/
def DEMON_ROLES : List String := ["mon", "osd", "mgr", "rgw", "mds"]

/-- Class attribute CLIENT_ROLES of CephObjectFactory (a list). -/
def CLIENT_ROLES : List String := ["client"]

/-- Python equality between a str and a list of str, as written in the
factory line role == self.CLIENT_ROLES: values of different types compare
unequal, so this is False for every string and every list. -/
def pyStrEqStrList (_role : String) (_l : List String) : Bool := false

/-- CephObjectFactory.create_ceph_object: the sequence of early returns of
the source — installer by exact match, the str-vs-list comparison against
CLIENT_ROLES, membership in DEMON_ROLES, then any role other than "pool"
gives the generic object; "pool" falls through to the implicit None. -/
def create_ceph_object (role : String) : Option CephObjKind :=
  if role == "installer" then some CephObjKind.installer
  else if pyStrEqStrList role CLIENT_ROLES then some CephObjKind.client
  else if DEMON_ROLES.contains role then some CephObjKind.demon
  else if role != "pool" then some CephObjKind.generic
  else none

/-- The factory call as CephNode stores its result: the created object keeps
the role it was built from, and object identities are made explicit so that
removal by identity is expressible; None stays none. -/
def createInstance (id : Nat) (role : String) : Option (Nat × String) :=
  (create_ceph_object role).map (fun _ => (id, role))

end CephObjectFactory

/-- C2: the factory maps "installer" to an Installer and each fixed daemon
role to a Daemon, creates nothing for "pool", and maps any other role to the
generic object — including "client", because the source compares the role
string to the CLIENT_ROLES list itself, a comparison that is always false in
Python, so the Client branch is dead and role "client" yields a generic
CephObject rather than the CephClient the claim states. -/
theorem C2_factory_mapping :
    CephObjectFactory.create_ceph_object "installer" = some CephObjKind.installer ∧
    CephObjectFactory.create_ceph_object "client" = some CephObjKind.generic ∧
    CephObjectFactory.create_ceph_object "mon" = some CephObjKind.demon ∧
    CephObjectFactory.create_ceph_object "osd" = some CephObjKind.demon ∧
    CephObjectFactory.create_ceph_object "mgr" = some CephObjKind.demon ∧
    CephObjectFactory.create_ceph_object "rgw" = some CephObjKind.demon ∧
    CephObjectFactory.create_ceph_object "mds" = some CephObjKind.demon ∧
    CephObjectFactory.create_ceph_object "pool" = none ∧
    CephObjectFactory.create_ceph_object "custom" = some CephObjKind.generic := by
  decide

/-- The ceph-object bookkeeping state of class CephNode: the attribute
ceph_object_list, whose entries are the factory results (None included, as
appended when create_ceph_object is called with role "pool"), each live
object carrying its identity and its role attribute; next_id supplies fresh
identities for newly created objects. -/
structure CephNode where
  ceph_object_list : List (Option (Nat × String))
  next_id : Nat
  deriving DecidableEq

/-- CephNode.__init__: ceph_object_list = [factory.create_ceph_object(role)
for role in roles if role != "pool"], identities assigned in order. -/
def CephNode.init (roles : List String) : CephNode :=
  let kept := roles.filter (fun r => r != "pool")
  ⟨kept.enum.map (fun p => CephObjectFactory.createInstance p.1 p.2), kept.length⟩

/-- The CephNode.role property: RolesContainer([cd.role for cd in
self.ceph_object_list if cd]) — the truthiness test drops None entries,
and the RolesContainer constructor normalises an empty list to ["pool"]. -/
def CephNode.role (self : CephNode) : RolesContainer :=
  RolesContainer.ofList ((self.ceph_object_list.filterMap id).map Prod.snd)

/-- CephNode.create_ceph_object: appends the factory result for the role —
None when the role is "pool" — to ceph_object_list. -/
def CephNode.create_ceph_object (self : CephNode) (role : String) : CephNode :=
  ⟨self.ceph_object_list ++ [CephObjectFactory.createInstance self.next_id role],
   self.next_id + 1⟩

/-- CephNode.remove_ceph_object: list.remove, dropping the first entry equal
(by identity) to the given object; the ValueError Python raises when the
object is absent is not modelled, the claim quantifying over successful
call sequences. -/
def CephNode.remove_ceph_object (self : CephNode) (obj : Option (Nat × String)) :
    CephNode :=
  ⟨self.ceph_object_list.erase obj, self.next_id⟩

/-- A call in a sequence of mutations of the ceph-object list. -/
inductive NodeOp
  | create (role : String)
  | remove (obj : Option (Nat × String))
  deriving DecidableEq

/-- Runs a sequence of create_ceph_object and remove_ceph_object calls. -/
def CephNode.applyOps (self : CephNode) : List NodeOp → CephNode
  | [] => self
  | NodeOp.create r :: rest => (self.create_ceph_object r).applyOps rest
  | NodeOp.remove o :: rest => (self.remove_ceph_object o).applyOps rest

/-- C8: after any sequence of create_ceph_object and remove_ceph_object
calls on a node built from any role list, reading the role property yields
the RolesContainer computed from exactly the roles of the objects currently
in ceph_object_list — it is a pure function of that list, with no stored
copy: the role list is exactly the current object roles whenever any object
exists, and the "pool" sentinel exactly when none does. -/
theorem C8_role_pure_function (roles : List String) (ops : List NodeOp) :
    let s := (CephNode.init roles).applyOps ops
    let objRoles := (s.ceph_object_list.filterMap id).map Prod.snd
    s.role = RolesContainer.ofList objRoles ∧
    (objRoles ≠ [] → s.role.role_list = objRoles) ∧
    (objRoles = [] → s.role.role_list = ["pool"]) := by
  intro s objRoles
  refine ⟨rfl, fun h => ?_, fun h => ?_⟩
  · show (if objRoles.length > 0 then objRoles else ["pool"]) = objRoles
    rw [if_pos (List.length_pos.mpr h)]
  · show (if objRoles.length > 0 then objRoles else ["pool"]) = ["pool"]
    rw [h]
    simp

/-- Python truthiness of the role argument (the if role else test): None is
falsy and so is the empty string. -/
def pyTruthyRole : Option String → Bool
  | none => false
  | some s => s != ""

/-- CephNode.get_ceph_demon: [cd for cd in self.ceph_object_list if cd.role
== role] if role else list(). When role is falsy the empty list is returned
without touching the entries; otherwise a None entry makes cd.role raise an
AttributeError, modelled as the none result. -/
def CephNode.get_ceph_demon (self : CephNode) (role : Option String) :
    Option (List (Nat × String)) :=
  if pyTruthyRole role then
    if self.ceph_object_list.all Option.isSome then
      some ((self.ceph_object_list.filterMap id).filter
        (fun cd => some cd.2 == role))
    else none
  else some []

/-- CephNode.get_ceph_objects: [cd for cd in self.ceph_object_list if
cd.role == role or not role]. cd.role is evaluated before the or, so a None
entry raises an AttributeError (the none result) even when role is unset;
a str never equals None, so with role unset the or-branch admits every
object. -/
def CephNode.get_ceph_objects (self : CephNode) (role : Option String) :
    Option (List (Nat × String)) :=
  if self.ceph_object_list.all Option.isSome then
    some ((self.ceph_object_list.filterMap id).filter
      (fun cd => (some cd.2 == role) || !(pyTruthyRole role)))
  else none

/-- C10: with no role, get_ceph_demon returns the empty list while
get_ceph_objects returns every object on the node; with a (non-empty) role
string, get_ceph_demon returns exactly the objects whose role equals it. -/
theorem C10_get_ceph_demon_filter (s : CephNode) (r : String) :
    (s.get_ceph_demon none = some []) ∧
    (s.ceph_object_list.all Option.isSome = true →
      s.get_ceph_objects none = some (s.ceph_object_list.filterMap id)) ∧
    (r ≠ "" → s.ceph_object_list.all Option.isSome = true →
      s.get_ceph_demon (some r)
        = some ((s.ceph_object_list.filterMap id).filter
            (fun cd => cd.2 == r))) := by
  refine ⟨rfl, fun h => ?_, fun hr h => ?_⟩
  · simp [CephNode.get_ceph_objects, h, pyTruthyRole]
  · simp [CephNode.get_ceph_demon, pyTruthyRole, h, hr]
